import Mathlib

/-!
Verification of the Melbourne event-discovery agent against its design
specification.

The development shallowly embeds the repository's Python sources:

* `tools.py` — the Budget Analyzer `analyze_event_budget` (a pure
  line-classification heuristic) is embedded exactly, character-level.
  The three network/file tools are irrelevant to the claims checked here
  except for their registry names.
* `main.py` / `app.py` — the two front ends share the orchestration loop
  `run_agent` (tool dispatch, failure boundary, combined-results block,
  second model call) and the parse-or-raw-fallback handling around it.
  The language model and the Pydantic output parser are external
  dependencies; the model is a parameter (an arbitrary function from
  prompt text to response text) and the parser is modelled from the
  spec as required-field decoding over a field map.

Python semantics notes: `str.lower()` is modelled by `Char.toLower`
per character (the inputs of interest are ASCII, where the two agree);
`str.split('\n')` by `splitLines`; `str.strip()` by `stripWs` over the
Python whitespace set; `in` (substring) by `containsSub`.
-/

/-! ## Character-level helpers for the Python string operations -/

/-- Python whitespace characters, as consumed by `str.strip()`. -/
def isPyWs (c : Char) : Bool :=
  c == ' ' || c == '\t' || c == '\n' || c == '\r' || c == '\x0b' || c == '\x0c'

/-- `str.strip()`: drop whitespace from both ends of a line. -/
def stripWs (l : List Char) : List Char :=
  ((l.dropWhile isPyWs).reverse.dropWhile isPyWs).reverse

/-- Does `hay` start with `needle`? (helper for substring containment). -/
def leadsWith : List Char → List Char → Bool
  | [], _ => true
  | _ :: _, [] => false
  | a :: as, b :: bs => a == b && leadsWith as bs

/-- Python `needle in hay`: substring containment. -/
def containsSub (needle : List Char) : List Char → Bool
  | [] => leadsWith needle []
  | c :: rest => leadsWith needle (c :: rest) || containsSub needle rest

/-- ASCII lowering of a whole string, Python `str.lower()` on ASCII text. -/
def lowerList (cs : List Char) : List Char :=
  cs.map Char.toLower

/-- Python `str.split('\n')`: always returns at least one (possibly empty)
line; no separator is kept. -/
def splitLines : List Char → List (List Char)
  | [] => [[]]
  | c :: rest =>
    match splitLines rest with
    | [] => [[]]
    | l :: ls => if c = '\n' then [] :: l :: ls else (c :: l) :: ls

/-! ## `tools.py`: the Budget Analyzer -/

/-- `free_keywords` from `tools.py` line 133, in source order. -/
def free_keywords : List String :=
  ["free", "no entry fee", "$0", "free entry", "no charge", "complimentary",
   "free admission"]

/-- `budget_keywords` from `tools.py` line 134, in source order. -/
def budget_keywords : List String :=
  ["$", "aud", "dollar", "price", "ticket", "cost", "fee"]

/-- `any(keyword in line for keyword in free_keywords)`. -/
def freeMatch (line : List Char) : Bool :=
  free_keywords.any (fun kw => containsSub kw.toList line)

/-- `any(keyword in line for keyword in budget_keywords)`. -/
def budgetMatch (line : List Char) : Bool :=
  budget_keywords.any (fun kw => containsSub kw.toList line)

/-- The classification loop of `analyze_event_budget` (`tools.py` lines
140-144): each line goes to the free bucket when a free keyword occurs in
it, else to the paid bucket when a budget keyword occurs in it, else to
neither; appended lines are stripped. -/
def classify : List (List Char) → List (List Char) × List (List Char)
  | [] => ([], [])
  | l :: rest =>
    let fb := classify rest
    if freeMatch l then (stripWs l :: fb.1, fb.2)
    else if budgetMatch l then (fb.1, stripWs l :: fb.2)
    else fb

/-- `lines = event_info.lower().split('\n')` followed by the
classification loop: the two buckets for a given input text. -/
def classifyLines (event_info : String) : List (List Char) × List (List Char) :=
  classify (splitLines (lowerList event_info.toList))

/-- `analyze_event_budget` from `tools.py` lines 124-158: the report
string, with the default `max_budget = "100"`. -/
def analyze_event_budget (event_info : String) (max_budget : String := "100") : String :=
  "\nBUDGET ANALYSIS (Maximum Budget: $" ++ max_budget ++ " AUD)\n\nFREE EVENTS FOUND: "
    ++ toString (classifyLines event_info).1.length ++ "\n"
    ++ (if (classifyLines event_info).1.isEmpty then
          "No clearly marked free events found in the search results"
        else String.intercalate "\n" (((classifyLines event_info).1.take 5).map String.mk))
    ++ "\n\nPAID EVENTS FOUND: " ++ toString (classifyLines event_info).2.length ++ "\n"
    ++ (if (classifyLines event_info).2.isEmpty then
          "No clearly marked paid events found in the search results"
        else String.intercalate "\n" (((classifyLines event_info).2.take 5).map String.mk))
    ++ "\n\nTIP: Always verify prices on official event pages as pricing may have changed.\n    "

example : classifyLines "free entry but $5 donation" = ([("free entry but $5 donation").toList], []) := by decide

example : classifyLines "Tickets $25\nsome plain line" = ([], [("tickets $25").toList]) := by decide

/-! ## Facts about `Char.toLower` needed for the line-level analysis -/

/-- On a valid scalar value, `Char.ofNat` round-trips through `toNat`. -/
theorem toNat_char_ofNat (n : Nat) (h : n.isValidChar) : (Char.ofNat n).toNat = n := by
  simp [Char.ofNat, dif_pos h, Char.ofNatAux, Char.toNat, UInt32.toNat]

/-- Lowering never produces a newline from a non-newline character. -/
theorem toLower_ne_newline (c : Char) (hc : c ≠ '\n') : Char.toLower c ≠ '\n' := by
  unfold Char.toLower
  by_cases h : c.toNat ≥ 65 ∧ c.toNat ≤ 90
  · rw [if_pos h]
    intro heq
    have hv : (c.toNat + 32).isValidChar := Or.inl (by omega)
    have := congrArg Char.toNat heq
    rw [toNat_char_ofNat _ hv] at this
    have h10 : ('\n').toNat = 10 := by decide
    omega
  · rw [if_neg h]
    exact hc

/-- Lowering is idempotent. -/
theorem toLower_idem (c : Char) : Char.toLower (Char.toLower c) = Char.toLower c := by
  by_cases h : c.toNat ≥ 65 ∧ c.toNat ≤ 90
  · have h1 : Char.toLower c = Char.ofNat (c.toNat + 32) := by
      unfold Char.toLower; rw [if_pos h]
    have hv : (c.toNat + 32).isValidChar := Or.inl (by omega)
    have ht := toNat_char_ofNat _ hv
    rw [h1]
    unfold Char.toLower
    rw [if_neg (by rw [ht]; omega)]
  · have h1 : Char.toLower c = c := by unfold Char.toLower; rw [if_neg h]
    rw [h1, h1]

/-- Splitting on newlines never yields the empty list of lines. -/
theorem splitLines_ne_nil (cs : List Char) : splitLines cs ≠ [] := by
  cases cs with
  | nil => simp [splitLines]
  | cons c rest =>
    cases h : splitLines rest with
    | nil => simp [splitLines, h]
    | cons l ls =>
      simp only [splitLines, h]
      split <;> simp

/-- Unfolding step of `splitLines` on a cons cell. -/
theorem splitLines_cons (c : Char) (cs : List Char) :
    splitLines (c :: cs) =
      match splitLines cs with
      | [] => [[]]
      | l :: ls => if c = '\n' then [] :: l :: ls else (c :: l) :: ls := rfl

/-- Lowering the whole text first and then splitting on newlines is the
same as splitting first and lowering each line. -/
theorem splitLines_lowerList (cs : List Char) :
    splitLines (lowerList cs) = (splitLines cs).map lowerList := by
  induction cs with
  | nil => rfl
  | cons c rest ih =>
    cases h : splitLines rest with
    | nil => exact absurd h (splitLines_ne_nil rest)
    | cons l ls =>
      have hlhs : splitLines (lowerList (c :: rest))
          = match splitLines (lowerList rest) with
            | [] => [[]]
            | l :: ls => if Char.toLower c = '\n' then [] :: l :: ls
                         else (Char.toLower c :: l) :: ls := rfl
      rw [hlhs, ih, h, splitLines_cons c rest, h]
      by_cases hc : c = '\n'
      · subst hc
        simp [lowerList]
      · have h2 : Char.toLower c ≠ '\n' := toLower_ne_newline c hc
        simp [lowerList, hc, h2]

/-- The classification loop, characterised line by line: the free bucket
holds exactly the (stripped) lines containing a free keyword, the paid
bucket exactly the lines containing none but a budget keyword. -/
theorem classify_eq_filter (ls : List (List Char)) :
    classify ls = ((ls.filter freeMatch).map stripWs,
                   (ls.filter (fun l => !freeMatch l && budgetMatch l)).map stripWs) := by
  induction ls with
  | nil => rfl
  | cons l rest ih =>
    by_cases hf : freeMatch l
    · simp [classify, hf, ih]
    · by_cases hb : budgetMatch l <;> simp [classify, hf, hb, ih]

/-! ## Claim theorems for the Budget Analyzer -/

/-- C7: every input line is classified independently and mutually
exclusively, with the free-keyword check preceding the paid-keyword
check (a line matching both lands in the free bucket only, a line
matching neither lands in neither), and matching is case-insensitive
(lowering the input first does not change the classification); the
spec's example line lands in the free bucket only. -/
theorem budget_classification_exclusive :
    (∀ ls : List (List Char),
        classify ls = ((ls.filter freeMatch).map stripWs,
          (ls.filter (fun l => !freeMatch l && budgetMatch l)).map stripWs)) ∧
    (∀ e : String, classifyLines (String.mk (lowerList e.toList)) = classifyLines e) ∧
    classifyLines "Free entry but $5 donation"
      = ([("free entry but $5 donation").toList], []) := by
  refine ⟨classify_eq_filter, ?_, by decide⟩
  intro e
  unfold classifyLines
  have h1 : (String.mk (lowerList e.toList)).toList = lowerList e.toList := rfl
  rw [h1]
  have h2 : lowerList (lowerList e.toList) = lowerList e.toList := by
    unfold lowerList
    rw [List.map_map]
    simp [Function.comp, toLower_idem]
  rw [h2]

/-- The report text of `analyze_event_budget`, assembled from the budget
string and the two buckets: it states the full length of each bucket and
lists only the first 5 entries of each. -/
def reportFromBuckets (max_budget : String)
    (fb : List (List Char) × List (List Char)) : String :=
  "\nBUDGET ANALYSIS (Maximum Budget: $" ++ max_budget ++ " AUD)\n\nFREE EVENTS FOUND: "
    ++ toString fb.1.length ++ "\n"
    ++ (if fb.1.isEmpty then
          "No clearly marked free events found in the search results"
        else String.intercalate "\n" ((fb.1.take 5).map String.mk))
    ++ "\n\nPAID EVENTS FOUND: " ++ toString fb.2.length ++ "\n"
    ++ (if fb.2.isEmpty then
          "No clearly marked paid events found in the search results"
        else String.intercalate "\n" ((fb.2.take 5).map String.mk))
    ++ "\n\nTIP: Always verify prices on official event pages as pricing may have changed.\n    "

/-- Eight input lines all matching the free-keyword set. -/
def eightFree : String :=
  "free event one\nfree event two\nfree event three\nfree event four\nfree event five\nfree event six\nfree event seven\nfree event eight"

set_option maxRecDepth 100000 in
/-- C8: the report states the full count of each bucket and lists at most
the first 5 lines of each bucket (`reportFromBuckets` shows the counts as
full lengths and the listings as `take 5`); on the 8-free-line input the
report states count 8 while listing exactly the first 5 free lines. -/
theorem budget_cap_report :
    (∀ (e b : String), analyze_event_budget e b = reportFromBuckets b (classifyLines e)) ∧
    (classifyLines eightFree).1.length = 8 ∧
    (classifyLines eightFree).2.length = 0 ∧
    analyze_event_budget eightFree "100"
      = "\nBUDGET ANALYSIS (Maximum Budget: $100 AUD)\n\nFREE EVENTS FOUND: 8\nfree event one\nfree event two\nfree event three\nfree event four\nfree event five\n\nPAID EVENTS FOUND: 0\nNo clearly marked paid events found in the search results\n\nTIP: Always verify prices on official event pages as pricing may have changed.\n    " := by
  refine ⟨fun e b => rfl, by decide, by decide, by decide⟩

/-- C9 counterexample: the displayed bucket line is not the original line
up to trimming — the input line "FREE Concert" (already trimmed) is
displayed as "free concert", differing in letter case. -/
theorem budget_verbatim_counterexample :
    (classifyLines "FREE Concert").1 = [("free concert").toList] ∧
    stripWs ("FREE Concert").toList = ("FREE Concert").toList ∧
    ("free concert").toList ≠ ("FREE Concert").toList := by
  refine ⟨by decide, by decide, by decide⟩

/-- C9 amended: each bucket line displayed in the report is the
corresponding original input line ASCII-lowercased and trimmed of
surrounding whitespace (the code lowercases the whole text before
splitting and classifying). -/
theorem budget_lines_lowered (e : String) :
    (classifyLines e).1
      = ((splitLines e.toList).filter (fun l => freeMatch (lowerList l))).map
          (fun l => stripWs (lowerList l)) ∧
    (classifyLines e).2
      = ((splitLines e.toList).filter
          (fun l => !freeMatch (lowerList l) && budgetMatch (lowerList l))).map
          (fun l => stripWs (lowerList l)) := by
  unfold classifyLines
  rw [splitLines_lowerList, classify_eq_filter]
  refine ⟨?_, ?_⟩ <;> dsimp only <;> rw [List.filter_map, List.map_map] <;> rfl

/-- The part of the budget report after the echoed budget value: it
depends only on the event text. -/
def budgetReportTail (event_info : String) : String :=
  " AUD)\n\nFREE EVENTS FOUND: "
    ++ toString (classifyLines event_info).1.length ++ "\n"
    ++ (if (classifyLines event_info).1.isEmpty then
          "No clearly marked free events found in the search results"
        else String.intercalate "\n" (((classifyLines event_info).1.take 5).map String.mk))
    ++ "\n\nPAID EVENTS FOUND: " ++ toString (classifyLines event_info).2.length ++ "\n"
    ++ (if (classifyLines event_info).2.isEmpty then
          "No clearly marked paid events found in the search results"
        else String.intercalate "\n" (((classifyLines event_info).2.take 5).map String.mk))
    ++ "\n\nTIP: Always verify prices on official event pages as pricing may have changed.\n    "

/-- C10: the `max_budget` argument does not influence classification —
for any event text and any two budget strings the reports are identical
except for the echoed budget value after "Maximum Budget: $", and the
omitted argument defaults to "100". -/
theorem budget_noninterference (e b₁ b₂ : String) :
    analyze_event_budget e b₁
      = "\nBUDGET ANALYSIS (Maximum Budget: $" ++ b₁ ++ budgetReportTail e ∧
    analyze_event_budget e b₂
      = "\nBUDGET ANALYSIS (Maximum Budget: $" ++ b₂ ++ budgetReportTail e ∧
    analyze_event_budget e
      = "\nBUDGET ANALYSIS (Maximum Budget: $" ++ "100" ++ budgetReportTail e := by
  refine ⟨?_, ?_, ?_⟩ <;>
    simp only [analyze_event_budget, budgetReportTail, String.append_assoc]

/-! ## The orchestration loop shared by `main.py` and `app.py` -/

/-- A registry entry as bound in the `tools` list: a name and the wrapped
callable. Invocation either returns result text or raises; a raised
exception is modelled as the `Except.error` side carrying its
description. -/
structure Tool where
  name : String
  func : List (String × String) → Except String String

/-- One proposed tool call from the first model response: the name and
the argument mapping (both read off the proposal with empty defaults). -/
structure ToolCall where
  name : String
  args : List (String × String)
  deriving DecidableEq

/-- The inner lookup loop over `tools` with its early `break`: the first
registry entry whose name matches. -/
def findTool (ts : List Tool) (n : String) : Option Tool :=
  ts.find? (fun t => t.name == n)

/-- The entry appended for one resolved invocation (`main.py` lines
109-116, `app.py` lines 107-112): the success text, or the labelled
failure converted from the exception inside the failure boundary. -/
def entryFor (t : Tool) (tc : ToolCall) : String :=
  match t.func tc.args with
  | Except.ok r => "Tool: " ++ tc.name ++ "\nResult: " ++ r
  | Except.error e => "Error with " ++ tc.name ++ ": " ++ e

/-- The Executing phase of `run_agent` (`main.py` lines 100-117,
`app.py` lines 100-113): proposed calls processed in order; an
unresolved name contributes nothing, a resolved one contributes exactly
its entry. -/
def execToolCalls (ts : List Tool) : List ToolCall → List String
  | [] => []
  | tc :: rest =>
    match findTool ts tc.name with
    | none => execToolCalls ts rest
    | some t => entryFor t tc :: execToolCalls ts rest

/-- `combined_results` (`main.py` line 120, `app.py` line 116): the
joined entries, or the placeholder when no entry was recorded. -/
def combined_results (results : List String) : String :=
  if results.isEmpty then "No tools were executed."
  else String.intercalate "\n\n" results

/-- The names of the proposed calls that resolve in the registry: the
tools actually looked up successfully during the run. -/
def resolvedNames (ts : List Tool) (plan : List ToolCall) : List String :=
  (plan.filter (fun tc => (findTool ts tc.name).isSome)).map (fun tc => tc.name)

/-! ## The structured output contract and its decoding -/

/-- A field value in the decoded model output: every field of the
structured response is a string or a list of strings. -/
inductive FieldVal where
  | str : String → FieldVal
  | list : List String → FieldVal
  deriving DecidableEq

/-- Field lookup by name in the decoded output. -/
def lookupField (fs : List (String × FieldVal)) (n : String) : Option FieldVal :=
  (fs.find? (fun p => p.1 == n)).map (fun p => p.2)

/-- Modelled from the spec: the Pydantic output parser is an external
dependency; a required string field of the structured output contract is
read here from the decoded field map, and its absence is a parse
failure. -/
def getStr (fs : List (String × FieldVal)) (n : String) : Except String String :=
  match lookupField fs n with
  | some (FieldVal.str s) => Except.ok s
  | some (FieldVal.list _) => Except.error ("wrong type for field " ++ n)
  | none => Except.error ("missing field " ++ n)

/-- Modelled from the spec: a required list-of-strings field of the
structured output contract; absence is a parse failure. -/
def getList (fs : List (String × FieldVal)) (n : String) : Except String (List String) :=
  match lookupField fs n with
  | some (FieldVal.list l) => Except.ok l
  | some (FieldVal.str _) => Except.error ("wrong type for field " ++ n)
  | none => Except.error ("missing field " ++ n)

theorem getStr_ok_isSome (fs : List (String × FieldVal)) (n s : String)
    (h : getStr fs n = Except.ok s) : (lookupField fs n).isSome = true := by
  cases hl : lookupField fs n with
  | none => rw [getStr, hl] at h; cases h
  | some v => rfl

theorem getList_ok_isSome (fs : List (String × FieldVal)) (n : String) (l : List String)
    (h : getList fs n = Except.ok l) : (lookupField fs n).isSome = true := by
  cases hl : lookupField fs n with
  | none => rw [getList, hl] at h; cases h
  | some v => rfl

/-- Inversion for a successful `Except` bind. -/
theorem bindExcept_ok {α β : Type} {x : Except String α} {f : α → Except String β} {b : β}
    (h : (x >>= f) = Except.ok b) : ∃ a, x = Except.ok a ∧ f a = Except.ok b := by
  cases x with
  | error e => cases h
  | ok a => exact ⟨a, rfl, h⟩

/-- The caller-facing outcome of one run: a structured response, or the
soft-failure branch carrying the raw model text plus the parse-error
description. -/
inductive RunOutcome (α : Type) where
  | structured : α → RunOutcome α
  | rawFallback : String → String → RunOutcome α
  deriving DecidableEq

namespace MainPy

/-- `MelbourneDiscoveryResponse` from `main.py` lines 14-23 (the CLI
front end): note it declares no `sources` field. -/
structure MelbourneDiscoveryResponse where
  query : String
  city : String
  events_found : List String
  news_highlights : List String
  recommendations : List String
  budget_friendly_options : List String
  friend_group_suggestions : List String
  tools_used : List String
  deriving DecidableEq

/-- The required field names declared by `main.py`, in declaration
order. -/
def requiredFields : List String :=
  ["query", "city", "events_found", "news_highlights", "recommendations",
   "budget_friendly_options", "friend_group_suggestions", "tools_used"]

/-- Modelled from the spec: decoding the raw model output (given as a
field map) into the `main.py` structured record; any required field
absent fails the parse. -/
def parse (fs : List (String × FieldVal)) : Except String MelbourneDiscoveryResponse := do
  let q ← getStr fs "query"
  let c ← getStr fs "city"
  let ev ← getList fs "events_found"
  let nh ← getList fs "news_highlights"
  let rc ← getList fs "recommendations"
  let bf ← getList fs "budget_friendly_options"
  let fg ← getList fs "friend_group_suggestions"
  let tu ← getList fs "tools_used"
  pure ⟨q, c, ev, nh, rc, bf, fg, tu⟩

/-- The second prompt built by `run_agent` (`main.py` lines 125-135). -/
def final_prompt (fmt combined query : String) : String :=
  "\nBased on the following tool results, provide a comprehensive answer about Melbourne events and news.\n\nTool Results:\n"
    ++ combined ++ "\n\nOriginal Query: " ++ query
    ++ "\n\nPlease provide a detailed response in the following JSON format:\n"
    ++ fmt ++ "\n"

/-- `run_agent` from `main.py` lines 82-139, parametrised by the model:
`plan` is the list of tool calls proposed by the first model call and
`render` is the second model call (prompt text to response text). The
result pairs the prompt sent to the second call with the raw content
returned. -/
def run_agent (render : String → String) (fmt : String) (ts : List Tool)
    (plan : List ToolCall) (query : String) : String × String :=
  (final_prompt fmt (combined_results (execToolCalls ts plan)) query,
   render (final_prompt fmt (combined_results (execToolCalls ts plan)) query))

/-- The parse-or-fallback handling in `main` (`main.py` lines 182-221):
a successful parse yields the structured response; a parse failure keeps
the raw output and shows the error description instead of raising.
`decode` stands for the extraction of the field map from raw text. -/
def handleOutput (decode : String → List (String × FieldVal)) (output : String) :
    RunOutcome MelbourneDiscoveryResponse :=
  match parse (decode output) with
  | Except.ok r => RunOutcome.structured r
  | Except.error e => RunOutcome.rawFallback output e

/-- One full run as `main` performs it: `run_agent`, then
parse-or-fallback on the returned content. -/
def main_run (render : String → String) (decode : String → List (String × FieldVal))
    (fmt : String) (ts : List Tool) (plan : List ToolCall) (query : String) :
    RunOutcome MelbourneDiscoveryResponse :=
  handleOutput decode (run_agent render fmt ts plan query).2

/-- A successful `main.py` parse pins every field of the record to the
corresponding field of the decoded output. -/
theorem main_parse_ok_fields (fs : List (String × FieldVal)) (r : MelbourneDiscoveryResponse)
    (h : parse fs = Except.ok r) :
    getStr fs "query" = Except.ok r.query ∧
    getStr fs "city" = Except.ok r.city ∧
    getList fs "events_found" = Except.ok r.events_found ∧
    getList fs "news_highlights" = Except.ok r.news_highlights ∧
    getList fs "recommendations" = Except.ok r.recommendations ∧
    getList fs "budget_friendly_options" = Except.ok r.budget_friendly_options ∧
    getList fs "friend_group_suggestions" = Except.ok r.friend_group_suggestions ∧
    getList fs "tools_used" = Except.ok r.tools_used := by
  unfold parse at h
  obtain ⟨q, h1, h⟩ := bindExcept_ok h
  obtain ⟨c, h2, h⟩ := bindExcept_ok h
  obtain ⟨ev, h3, h⟩ := bindExcept_ok h
  obtain ⟨nh, h4, h⟩ := bindExcept_ok h
  obtain ⟨rc, h5, h⟩ := bindExcept_ok h
  obtain ⟨bf, h6, h⟩ := bindExcept_ok h
  obtain ⟨fg, h7, h⟩ := bindExcept_ok h
  obtain ⟨tu, h8, h⟩ := bindExcept_ok h
  have h9 : (⟨q, c, ev, nh, rc, bf, fg, tu⟩ : MelbourneDiscoveryResponse) = r :=
    Except.ok.inj h
  subst h9
  exact ⟨h1, h2, h3, h4, h5, h6, h7, h8⟩

end MainPy

namespace AppPy

/-- `MelbourneDiscoveryResponse` from `app.py` lines 13-23 (the GUI
front end): it additionally declares `sources`. -/
structure MelbourneDiscoveryResponse where
  query : String
  city : String
  events_found : List String
  news_highlights : List String
  recommendations : List String
  budget_friendly_options : List String
  friend_group_suggestions : List String
  sources : List String
  tools_used : List String
  deriving DecidableEq

/-- The required field names declared by `app.py`, in declaration
order. -/
def requiredFields : List String :=
  ["query", "city", "events_found", "news_highlights", "recommendations",
   "budget_friendly_options", "friend_group_suggestions", "sources", "tools_used"]

/-- Modelled from the spec: decoding the raw model output (given as a
field map) into the `app.py` structured record; any required field
absent fails the parse. -/
def parse (fs : List (String × FieldVal)) : Except String MelbourneDiscoveryResponse := do
  let q ← getStr fs "query"
  let c ← getStr fs "city"
  let ev ← getList fs "events_found"
  let nh ← getList fs "news_highlights"
  let rc ← getList fs "recommendations"
  let bf ← getList fs "budget_friendly_options"
  let fg ← getList fs "friend_group_suggestions"
  let so ← getList fs "sources"
  let tu ← getList fs "tools_used"
  pure ⟨q, c, ev, nh, rc, bf, fg, so, tu⟩

/-- The second prompt built by `run_agent` (`app.py` lines 119-134;
it adds the IMPORTANT paragraph about sources). -/
def final_prompt (fmt combined query : String) : String :=
  "\nBased on the following tool results, provide a comprehensive answer about \nMelbourne events and news.\n\nTool Results:\n"
    ++ combined ++ "\n\nOriginal Query: " ++ query
    ++ "\n\nIMPORTANT: Extract all URLs from the tool results and include them in the\nsources field formatted as [Title](URL). Only use URLs that appear in the\ntool results, never make up URLs.\n\nPlease provide a detailed response in the following JSON format:\n"
    ++ fmt ++ "\n"

/-- `run_agent` from `app.py` lines 87-138, parametrised like the
`main.py` one. -/
def run_agent (render : String → String) (fmt : String) (ts : List Tool)
    (plan : List ToolCall) (query : String) : String × String :=
  (final_prompt fmt (combined_results (execToolCalls ts plan)) query,
   render (final_prompt fmt (combined_results (execToolCalls ts plan)) query))

/-- The parse-or-fallback handling under the search button (`app.py`
lines 306-377): a parse failure shows the raw output and the error
description instead of raising. -/
def handleOutput (decode : String → List (String × FieldVal)) (output : String) :
    RunOutcome MelbourneDiscoveryResponse :=
  match parse (decode output) with
  | Except.ok r => RunOutcome.structured r
  | Except.error e => RunOutcome.rawFallback output e

/-- A successful `app.py` parse pins every field of the record to the
corresponding field of the decoded output. -/
theorem app_parse_ok_fields (fs : List (String × FieldVal)) (r : MelbourneDiscoveryResponse)
    (h : parse fs = Except.ok r) :
    getStr fs "query" = Except.ok r.query ∧
    getStr fs "city" = Except.ok r.city ∧
    getList fs "events_found" = Except.ok r.events_found ∧
    getList fs "news_highlights" = Except.ok r.news_highlights ∧
    getList fs "recommendations" = Except.ok r.recommendations ∧
    getList fs "budget_friendly_options" = Except.ok r.budget_friendly_options ∧
    getList fs "friend_group_suggestions" = Except.ok r.friend_group_suggestions ∧
    getList fs "sources" = Except.ok r.sources ∧
    getList fs "tools_used" = Except.ok r.tools_used := by
  unfold parse at h
  obtain ⟨q, h1, h⟩ := bindExcept_ok h
  obtain ⟨c, h2, h⟩ := bindExcept_ok h
  obtain ⟨ev, h3, h⟩ := bindExcept_ok h
  obtain ⟨nh, h4, h⟩ := bindExcept_ok h
  obtain ⟨rc, h5, h⟩ := bindExcept_ok h
  obtain ⟨bf, h6, h⟩ := bindExcept_ok h
  obtain ⟨fg, h7, h⟩ := bindExcept_ok h
  obtain ⟨so, h8, h⟩ := bindExcept_ok h
  obtain ⟨tu, h9, h⟩ := bindExcept_ok h
  have h10 : (⟨q, c, ev, nh, rc, bf, fg, so, tu⟩ : MelbourneDiscoveryResponse) = r :=
    Except.ok.inj h
  subst h10
  exact ⟨h1, h2, h3, h4, h5, h6, h7, h8, h9⟩

end AppPy

/-! ## Claim theorems for the orchestration loop -/

/-- C1: during Executing, when every proposed name resolves in the
registry, the aggregate has exactly one entry per proposed call, in
proposal order — a throwing invocation is converted into a labelled
failure entry carrying the tool name and the error description, and
every sibling invocation still contributes its own entry. -/
theorem exec_entries_complete (ts : List Tool) (plan : List ToolCall)
    (h : ∀ tc ∈ plan, (findTool ts tc.name).isSome = true) :
    execToolCalls ts plan
      = plan.map (fun tc => (findTool ts tc.name).elim "" (fun t => entryFor t tc)) := by
  induction plan with
  | nil => rfl
  | cons tc rest ih =>
    have h1 := h tc (List.mem_cons_self tc rest)
    cases hf : findTool ts tc.name with
    | none => rw [hf] at h1; cases h1
    | some t =>
      have h2 := ih (fun x hx => h x (List.mem_cons_of_mem tc hx))
      simp [execToolCalls, hf, h2, Option.elim]

/-- Registry of three resolvable tools whose second invocation throws. -/
def c1Tools : List Tool :=
  [⟨"search_local_events", fun _ => Except.ok "events text"⟩,
   ⟨"search_melbourne_news", fun _ => Except.error "network down"⟩,
   ⟨"analyze_event_budget", fun _ => Except.ok "budget text"⟩]

/-- Three proposed calls, all resolvable, the second one failing. -/
def c1Plan : List ToolCall :=
  [⟨"search_local_events", []⟩,
   ⟨"search_melbourne_news", []⟩,
   ⟨"analyze_event_budget", []⟩]

/-- Witness for C1: 3 resolved calls with the 2nd throwing yield exactly
3 entries in order — 2 success-shaped, 1 failure-shaped. -/
theorem exec_entries_complete_instance :
    (∀ tc ∈ c1Plan, (findTool c1Tools tc.name).isSome = true) ∧
    execToolCalls c1Tools c1Plan
      = c1Plan.map (fun tc => (findTool c1Tools tc.name).elim "" (fun t => entryFor t tc)) ∧
    execToolCalls c1Tools c1Plan
      = ["Tool: search_local_events\nResult: events text",
         "Error with search_melbourne_news: network down",
         "Tool: analyze_event_budget\nResult: budget text"] :=
  ⟨by decide, exec_entries_complete c1Tools c1Plan (by decide), by decide⟩

/-- C6: a proposed call whose name is not in the registry is skipped
silently — it contributes no entry at all, and the remaining calls are
processed exactly as if it were absent. -/
theorem unknown_tool_skipped (ts : List Tool) (pre post : List ToolCall) (tc : ToolCall)
    (h : (findTool ts tc.name).isNone = true) :
    execToolCalls ts (pre ++ tc :: post) = execToolCalls ts (pre ++ post) := by
  rw [Option.isNone_iff_eq_none] at h
  induction pre with
  | nil => simp [execToolCalls, h]
  | cons p ps ih =>
    cases hf : findTool ts p.name <;> simp [execToolCalls, hf, ih]

/-- Registry of two resolvable tools for the skip witness. -/
def c6Tools : List Tool :=
  [⟨"search_local_events", fun _ => Except.ok "events text"⟩,
   ⟨"search_melbourne_news", fun _ => Except.ok "news text"⟩]

/-- Resolvable call before the unknown one. -/
def c6Pre : List ToolCall := [⟨"search_local_events", []⟩]

/-- A proposed call whose name is in no registry entry. -/
def c6Call : ToolCall := ⟨"save_events_typo", []⟩

/-- Resolvable call after the unknown one. -/
def c6Post : List ToolCall := [⟨"search_melbourne_news", []⟩]

/-- Witness for C6: the unrecognized middle call leaves no entry while
both surrounding calls still execute. -/
theorem unknown_tool_skipped_instance :
    ((findTool c6Tools c6Call.name).isNone = true) ∧
    execToolCalls c6Tools (c6Pre ++ c6Call :: c6Post)
      = execToolCalls c6Tools (c6Pre ++ c6Post) ∧
    execToolCalls c6Tools (c6Pre ++ c6Call :: c6Post)
      = ["Tool: search_local_events\nResult: events text",
         "Tool: search_melbourne_news\nResult: news text"] :=
  ⟨by decide, unknown_tool_skipped c6Tools c6Pre c6Post c6Call (by decide), by decide⟩

/-- When no proposed call resolves, the Executing phase records no
entry. -/
theorem execToolCalls_nil_of_unresolved (ts : List Tool) (plan : List ToolCall)
    (h : ∀ tc ∈ plan, (findTool ts tc.name).isNone = true) :
    execToolCalls ts plan = [] := by
  induction plan with
  | nil => rfl
  | cons tc rest ih =>
    have h1 := h tc (List.mem_cons_self tc rest)
    rw [Option.isNone_iff_eq_none] at h1
    simp [execToolCalls, h1, ih (fun x hx => h x (List.mem_cons_of_mem tc hx))]

/-- C3: when zero proposed calls resolve (in particular when zero were
proposed), the combined-results block is exactly the literal
"No tools were executed." and both front ends still make the second
model call, with that block embedded in the prompt. -/
theorem no_tools_placeholder (render : String → String) (fmt : String)
    (ts : List Tool) (plan : List ToolCall) (query : String)
    (h : ∀ tc ∈ plan, (findTool ts tc.name).isNone = true) :
    combined_results (execToolCalls ts plan) = "No tools were executed." ∧
    MainPy.run_agent render fmt ts plan query
      = (MainPy.final_prompt fmt "No tools were executed." query,
         render (MainPy.final_prompt fmt "No tools were executed." query)) ∧
    AppPy.run_agent render fmt ts plan query
      = (AppPy.final_prompt fmt "No tools were executed." query,
         render (AppPy.final_prompt fmt "No tools were executed." query)) := by
  have hx := execToolCalls_nil_of_unresolved ts plan h
  refine ⟨?_, ?_, ?_⟩ <;>
    simp [MainPy.run_agent, AppPy.run_agent, hx, combined_results]

/-- The four-entry registry with the names bound in `main.py` and
`app.py`; the callables are stubbed (their network and file effects are
out of scope for the dispatch claims). -/
def c3Tools : List Tool :=
  [⟨"search_local_events", fun _ => Except.ok "stub"⟩,
   ⟨"search_melbourne_news", fun _ => Except.ok "stub"⟩,
   ⟨"save_events", fun _ => Except.ok "stub"⟩,
   ⟨"analyze_event_budget", fun _ => Except.ok "stub"⟩]

/-- A single proposed call that resolves in no registry entry. -/
def c3Plan : List ToolCall := [⟨"fetch_weather", []⟩]

/-- A concrete second model call for the C3 witness. -/
def c3Render : String → String := fun p => "model reply to: " ++ p

/-- Witness for C3: with one unresolvable proposed call the placeholder
block is used and the second call still happens in both front ends. -/
theorem no_tools_placeholder_instance :
    (∀ tc ∈ c3Plan, (findTool c3Tools tc.name).isNone = true) ∧
    (combined_results (execToolCalls c3Tools c3Plan) = "No tools were executed." ∧
     MainPy.run_agent c3Render "FMT" c3Tools c3Plan "find events"
       = (MainPy.final_prompt "FMT" "No tools were executed." "find events",
          c3Render (MainPy.final_prompt "FMT" "No tools were executed." "find events")) ∧
     AppPy.run_agent c3Render "FMT" c3Tools c3Plan "find events"
       = (AppPy.final_prompt "FMT" "No tools were executed." "find events",
          c3Render (AppPy.final_prompt "FMT" "No tools were executed." "find events"))) :=
  ⟨by decide, no_tools_placeholder c3Render "FMT" c3Tools c3Plan "find events" (by decide)⟩

/-- C2: a second response that fails to decode into the structured
record does not abort the run — in both front ends the caller receives
the raw text verbatim together with the parse-error description. -/
theorem parse_failure_soft (decode : String → List (String × FieldVal)) (output e : String) :
    (MainPy.parse (decode output) = Except.error e →
      MainPy.handleOutput decode output = RunOutcome.rawFallback output e) ∧
    (AppPy.parse (decode output) = Except.error e →
      AppPy.handleOutput decode output = RunOutcome.rawFallback output e) := by
  constructor <;> intro h <;> simp [MainPy.handleOutput, AppPy.handleOutput, h]

/-- A decoded second response missing the required `events_found`
field. -/
def c2Decode : String → List (String × FieldVal) :=
  fun _ => [("query", FieldVal.str "events query"), ("city", FieldVal.str "Melbourne")]

/-- Witness for C2: an output missing `events_found` drives both front
ends to the raw-fallback outcome with the raw text kept verbatim. -/
theorem parse_failure_soft_instance :
    (MainPy.parse (c2Decode "THE RAW REPLY") = Except.error "missing field events_found" ∧
     MainPy.handleOutput c2Decode "THE RAW REPLY"
       = RunOutcome.rawFallback "THE RAW REPLY" "missing field events_found") ∧
    (AppPy.parse (c2Decode "THE RAW REPLY") = Except.error "missing field events_found" ∧
     AppPy.handleOutput c2Decode "THE RAW REPLY"
       = RunOutcome.rawFallback "THE RAW REPLY" "missing field events_found") :=
  ⟨⟨rfl,
    (parse_failure_soft c2Decode "THE RAW REPLY" "missing field events_found").1 rfl⟩,
   ⟨rfl,
    (parse_failure_soft c2Decode "THE RAW REPLY" "missing field events_found").2 rfl⟩⟩

/-! ## Claim theorems for the structured output contract -/

/-- A decoded output carrying every field `main.py` declares (and no
`sources`). -/
def c4Fields : List (String × FieldVal) :=
  [("query", FieldVal.str "find tech meetups"),
   ("city", FieldVal.str "Melbourne"),
   ("events_found", FieldVal.list ["meetup A"]),
   ("news_highlights", FieldVal.list ["news A"]),
   ("recommendations", FieldVal.list ["rec A"]),
   ("budget_friendly_options", FieldVal.list ["free A"]),
   ("friend_group_suggestions", FieldVal.list ["tech friends"]),
   ("tools_used", FieldVal.list ["search_local_events"])]

/-- The record `c4Fields` parses to in `main.py`. -/
def c4Resp : MainPy.MelbourneDiscoveryResponse :=
  ⟨"find tech meetups", "Melbourne", ["meetup A"], ["news A"], ["rec A"], ["free A"],
   ["tech friends"], ["search_local_events"]⟩

/-- C4 counterexample: the claim lists `sources` among the fields
declared by both front ends, but the `main.py` record does not declare
it — a model output with every field except `sources` parses in
`main.py` while failing in `app.py`. -/
theorem response_fields_counterexample :
    ("sources" ∈ AppPy.requiredFields) ∧ ("sources" ∉ MainPy.requiredFields) ∧
    MainPy.parse c4Fields = Except.ok c4Resp ∧
    AppPy.parse c4Fields = Except.error "missing field sources" :=
  ⟨by decide, by decide, rfl, rfl⟩

/-- C4 amended: `app.py` declares exactly the nine claimed fields;
`main.py` declares the same minus `sources`; in each front end a model
output missing any of that front end's declared fields fails to
parse. -/
theorem response_fields_amended :
    AppPy.requiredFields
      = ["query", "city", "events_found", "news_highlights", "recommendations",
         "budget_friendly_options", "friend_group_suggestions", "sources", "tools_used"] ∧
    MainPy.requiredFields
      = ["query", "city", "events_found", "news_highlights", "recommendations",
         "budget_friendly_options", "friend_group_suggestions", "tools_used"] ∧
    (∀ fs r, MainPy.parse fs = Except.ok r →
      ∀ f ∈ MainPy.requiredFields, (lookupField fs f).isSome = true) ∧
    (∀ fs r, AppPy.parse fs = Except.ok r →
      ∀ f ∈ AppPy.requiredFields, (lookupField fs f).isSome = true) := by
  refine ⟨rfl, rfl, ?_, ?_⟩
  · intro fs r h f hf
    obtain ⟨h1, h2, h3, h4, h5, h6, h7, h8⟩ := MainPy.main_parse_ok_fields fs r h
    simp only [MainPy.requiredFields, List.mem_cons, List.not_mem_nil, or_false] at hf
    rcases hf with rfl | rfl | rfl | rfl | rfl | rfl | rfl | rfl
    · exact getStr_ok_isSome _ _ _ h1
    · exact getStr_ok_isSome _ _ _ h2
    · exact getList_ok_isSome _ _ _ h3
    · exact getList_ok_isSome _ _ _ h4
    · exact getList_ok_isSome _ _ _ h5
    · exact getList_ok_isSome _ _ _ h6
    · exact getList_ok_isSome _ _ _ h7
    · exact getList_ok_isSome _ _ _ h8
  · intro fs r h f hf
    obtain ⟨h1, h2, h3, h4, h5, h6, h7, h8, h9⟩ := AppPy.app_parse_ok_fields fs r h
    simp only [AppPy.requiredFields, List.mem_cons, List.not_mem_nil, or_false] at hf
    rcases hf with rfl | rfl | rfl | rfl | rfl | rfl | rfl | rfl | rfl
    · exact getStr_ok_isSome _ _ _ h1
    · exact getStr_ok_isSome _ _ _ h2
    · exact getList_ok_isSome _ _ _ h3
    · exact getList_ok_isSome _ _ _ h4
    · exact getList_ok_isSome _ _ _ h5
    · exact getList_ok_isSome _ _ _ h6
    · exact getList_ok_isSome _ _ _ h7
    · exact getList_ok_isSome _ _ _ h8
    · exact getList_ok_isSome _ _ _ h9

/-- A decoded output carrying every field `app.py` declares. -/
def c4FieldsApp : List (String × FieldVal) :=
  c4Fields ++ [("sources", FieldVal.list ["[TimeOut](https://www.timeout.com/melbourne)"])]

/-- The record `c4FieldsApp` parses to in `app.py`. -/
def c4RespApp : AppPy.MelbourneDiscoveryResponse :=
  ⟨"find tech meetups", "Melbourne", ["meetup A"], ["news A"], ["rec A"], ["free A"],
   ["tech friends"], ["[TimeOut](https://www.timeout.com/melbourne)"],
   ["search_local_events"]⟩

/-- Witness for C4 amended: complete decoded outputs parse in each
front end, and every required field is then present. -/
theorem response_fields_amended_instance :
    ((∀ f ∈ MainPy.requiredFields, (lookupField c4Fields f).isSome = true) ∧
     (∀ f ∈ AppPy.requiredFields, (lookupField c4FieldsApp f).isSome = true)) :=
  ⟨response_fields_amended.2.2.1 c4Fields c4Resp rfl,
   response_fields_amended.2.2.2 c4FieldsApp c4RespApp rfl⟩

/-- C5 amended: neither front end checks `tools_used` against the
registry or the calls actually made — a successful structured result
carries exactly the `tools_used` list decoded from the model output,
whatever names it contains. -/
theorem tools_used_amended :
    (∀ fs r, MainPy.parse fs = Except.ok r →
        getList fs "tools_used" = Except.ok r.tools_used) ∧
    (∀ fs r, AppPy.parse fs = Except.ok r →
        getList fs "tools_used" = Except.ok r.tools_used) := by
  constructor
  · intro fs r h
    exact (MainPy.main_parse_ok_fields fs r h).2.2.2.2.2.2.2
  · intro fs r h
    exact (AppPy.app_parse_ok_fields fs r h).2.2.2.2.2.2.2.2

/-- A decoded output whose `tools_used` names a tool absent from the
registry. -/
def c5Fields : List (String × FieldVal) :=
  [("query", FieldVal.str "find concerts"),
   ("city", FieldVal.str "Melbourne"),
   ("events_found", FieldVal.list ["concert A"]),
   ("news_highlights", FieldVal.list []),
   ("recommendations", FieldVal.list ["go to concert A"]),
   ("budget_friendly_options", FieldVal.list []),
   ("friend_group_suggestions", FieldVal.list ["music lovers"]),
   ("tools_used", FieldVal.list ["made_up_tool"])]

/-- The record `c5Fields` parses to in `main.py`. -/
def c5Resp : MainPy.MelbourneDiscoveryResponse :=
  ⟨"find concerts", "Melbourne", ["concert A"], [], ["go to concert A"], [],
   ["music lovers"], ["made_up_tool"]⟩

/-- The decoding of the rendered text for the C5 run. -/
def c5Decode : String → List (String × FieldVal) := fun _ => c5Fields

/-- The second model call for the C5 run. -/
def c5Render : String → String := fun _ => "MODEL JSON REPLY"

/-- The four-entry registry for the C5 run, callables stubbed. -/
def c5Tools : List Tool :=
  [⟨"search_local_events", fun _ => Except.ok "stub"⟩,
   ⟨"search_melbourne_news", fun _ => Except.ok "stub"⟩,
   ⟨"save_events", fun _ => Except.ok "stub"⟩,
   ⟨"analyze_event_budget", fun _ => Except.ok "stub"⟩]

/-- C5 counterexample: a full `main.py` run in which no tool was looked
up still yields a structured result whose `tools_used` names a tool that
was never looked up and is absent from the registry — the claimed subset
property does not hold for every rendered text. -/
theorem tools_used_counterexample :
    MainPy.main_run c5Render c5Decode "FMT" c5Tools [] "find concerts"
      = RunOutcome.structured c5Resp ∧
    c5Resp.tools_used = ["made_up_tool"] ∧
    resolvedNames c5Tools ([] : List ToolCall) = [] ∧
    (∀ t ∈ c5Tools, t.name ≠ "made_up_tool") :=
  ⟨rfl, rfl, rfl, by decide⟩

/-- Witness for C5 amended: on the concrete decoded output the
structured result echoes the decoded `tools_used` verbatim. -/
theorem tools_used_amended_instance :
    getList c5Fields "tools_used" = Except.ok c5Resp.tools_used :=
  tools_used_amended.1 c5Fields c5Resp rfl
